import Mathlib

/-!
# Verification of the uamqp async Session / Transport core

Shallow embedding of `src/uamqp/aio/_session_async.py` and
`src/uamqp/aio/_transport_async.py` (azure-uamqp-python).

Python integers are arbitrary precision, so counters and windows are `Int`.
Fields that may hold Python `None` are `Option`. Python exceptions are the
`PyErr` error type of an `Except` result. Calls out to the Connection
(`_process_outgoing_frame`) and to Links (`link._incoming_*`) are recorded
as a list of `OutEvent`s, since Connection and Link are external
collaborators of the Session.
-/

/-- `SessionState` from `..constants` (states named in `_session_async.py`). -/
inductive SessionState where
  | UNMAPPED
  | BEGIN_SENT
  | BEGIN_RCVD
  | MAPPED
  | END_SENT
  | END_RCVD
  | DISCARDING
deriving DecidableEq, Repr

/-- `SessionTransferState` from `..constants`: outcomes written into
`delivery.transfer_state` by `_outgoing_transfer`. -/
inductive SessionTransferState where
  | Okay
  | Error
  | Busy
deriving DecidableEq, Repr

/-- Python exceptions raised (or swallowed) by the embedded code paths. -/
inductive PyErr where
  | valueError
  | keyError
  | typeError
  | stopIteration
  | attributeError
deriving DecidableEq, Repr

/-- The part of a Link the Session reads: an identity and `_is_closed`
(Links are external collaborators; `id` stands for the link object). -/
structure Link where
  id : Nat
  is_closed : Bool
deriving DecidableEq, Repr

/-- The mutable dict `delivery.frame`: the Session writes
`delivery.frame['delivery_id']`; every other key is opaque (`rest`). -/
structure DeliveryFrame where
  delivery_id : Option Int
  rest : Nat
deriving DecidableEq, Repr

/-- A Delivery: its outgoing frame dict and the `transfer_state` outcome the
Session writes back (`None` before the call). -/
structure Delivery where
  frame : DeliveryFrame
  transfer_state : Option SessionTransferState
deriving DecidableEq, Repr

/-- The fields of `BeginFrame` that `_incoming_begin` / `_outgoing_begin`
read or populate. -/
structure BeginFrameOut where
  remote_channel : Option Int
  next_outgoing_id : Int
  outgoing_window : Int
  incoming_window : Int
  handle_max : Nat
  offered_capabilities : Option Nat
  desired_capabilities : Option Nat
  properties : Option Nat
deriving DecidableEq, Repr

/-- An incoming Begin frame, as read by `_incoming_begin`. -/
structure BeginFrameIn where
  remote_channel : Option Int
  next_outgoing_id : Int
  incoming_window : Int
  outgoing_window : Int
  handle_max : Nat
deriving DecidableEq, Repr

/-- The session-level fields `_outgoing_flow` overlays into the
`FlowFrame` it sends. -/
structure FlowFrameOut where
  next_incoming_id : Option Int
  incoming_window : Int
  next_outgoing_id : Int
  outgoing_window : Int
deriving DecidableEq, Repr

/-- An incoming Flow frame, as read by `_incoming_flow`.
`next_incoming_id` and `handle` are optional fields of the performative. -/
structure FlowFrameIn where
  next_outgoing_id : Int
  next_incoming_id : Option Int
  incoming_window : Int
  outgoing_window : Int
  handle : Option Nat
deriving DecidableEq, Repr

/-- An incoming Transfer frame: `_incoming_transfer` only reads `handle`
(the payload is forwarded opaquely to the Link). -/
structure TransferFrameIn where
  handle : Nat
  rest : Nat
deriving DecidableEq, Repr

/-- Frames the Session hands to `self._connection._process_outgoing_frame`. -/
inductive Frame where
  | beginF : BeginFrameOut → Frame
  | flowF : FlowFrameOut → Frame
  | transferF : DeliveryFrame → Frame
deriving DecidableEq, Repr

/-- Observable calls the Session makes on its collaborators. -/
inductive OutEvent where
  | frame_sent : Int → Frame → OutEvent
  | link_flow : Nat → OutEvent
  | link_transfer : Nat → OutEvent
deriving DecidableEq, Repr

/-- The Session state (`Session.__init__` fields touched by the embedded
methods; `links` itself is subsumed by the two handle tables). -/
structure Session where
  state : SessionState
  channel : Int
  remote_channel : Option Int
  handle_max : Nat
  next_outgoing_id : Int
  next_incoming_id : Option Int
  incoming_window : Int
  outgoing_window : Int
  target_incoming_window : Int
  remote_incoming_window : Int
  remote_outgoing_window : Int
  offered_capabilities : Option Nat
  desired_capabilities : Option Nat
  properties : Option Nat
  output_handles : List (Nat × Link)
  input_handles : List (Nat × Link)
deriving DecidableEq, Repr

/-- `Session.__init__` with default kwargs (channel supplied by the
Connection): UNMAPPED, `handle_max=4294967295`, `next_outgoing_id=0`,
`incoming_window=outgoing_window=1`, remote windows 0, empty handle tables. -/
def fresh_session (channel : Int) : Session :=
  { state := SessionState.UNMAPPED
    channel := channel
    remote_channel := none
    handle_max := 4294967295
    next_outgoing_id := 0
    next_incoming_id := none
    incoming_window := 1
    outgoing_window := 1
    target_incoming_window := 1
    remote_incoming_window := 0
    remote_outgoing_window := 0
    offered_capabilities := none
    desired_capabilities := none
    properties := none
    output_handles := []
    input_handles := [] }

/-- Python dict indexing `tbl[h]` on a handle table (`None` on a missing
key; callers turn that into `KeyError` or swallow it, as the source does). -/
def lookup_handle (tbl : List (Nat × Link)) (h : Nat) : Option Link :=
  (tbl.find? (fun p => p.1 == h)).map Prod.snd

/-- Python truthiness of `frame.next_incoming_id or default`:
`None` and `0` are falsy. -/
def py_or_int (v : Option Int) (dflt : Int) : Int :=
  match v with
  | some n => if n = 0 then dflt else n
  | none => dflt

/-- Python truthiness of an optional handle (`if frame.handle:`):
`None` and `0` are falsy. -/
def py_truthy_opt (v : Option Nat) : Bool :=
  match v with
  | some n => n != 0
  | none => false

/-- `_outgoing_transfer(self, delivery)` (lines 201-213). Note the source
has no `return` after the non-MAPPED `Error` assignment: control falls
through to the window check, so the `Error` write is always overwritten by
`Busy` or `Okay`. -/
def outgoing_transfer (s : Session) (d : Delivery) :
    Session × Delivery × List OutEvent :=
  let d1 :=
    if s.state ≠ SessionState.MAPPED then
      { d with transfer_state := some SessionTransferState.Error }
    else d
  if s.remote_incoming_window ≤ 0 then
    (s, { d1 with transfer_state := some SessionTransferState.Busy }, [])
  else
    let stamped : DeliveryFrame := { d1.frame with delivery_id := some s.next_outgoing_id }
    ({ s with
        next_outgoing_id := s.next_outgoing_id + 1
        remote_incoming_window := s.remote_incoming_window - 1
        outgoing_window := s.outgoing_window - 1 },
      { d1 with frame := stamped, transfer_state := some SessionTransferState.Okay },
      [OutEvent.frame_sent s.channel (Frame.transferF stamped)])

/-- C1: an outgoing Transfer attempted while `remote_incoming_window <= 0`
marks the Delivery `Busy`, sends no frame, and leaves the whole Session
(all counters included) unchanged. -/
theorem outgoing_transfer_busy_gate (s : Session) (d : Delivery)
    (h : s.remote_incoming_window ≤ 0) :
    (outgoing_transfer s d).2.1.transfer_state = some SessionTransferState.Busy ∧
    (outgoing_transfer s d).2.2 = [] ∧
    (outgoing_transfer s d).1 = s := by
  simp [outgoing_transfer, if_pos h]

/-- Witness for C1 at a concrete MAPPED session with an exhausted window. -/
theorem outgoing_transfer_busy_gate_witness :
    ({ fresh_session 0 with state := SessionState.MAPPED }).remote_incoming_window ≤ 0 ∧
    (outgoing_transfer { fresh_session 0 with state := SessionState.MAPPED }
        { frame := { delivery_id := none, rest := 7 }, transfer_state := none }).2.1.transfer_state
      = some SessionTransferState.Busy :=
  ⟨by decide,
    (outgoing_transfer_busy_gate { fresh_session 0 with state := SessionState.MAPPED }
      { frame := { delivery_id := none, rest := 7 }, transfer_state := none } (by decide)).1⟩

/-- C2: in MAPPED with a positive remote incoming window, the Transfer is
stamped with `delivery_id = next_outgoing_id`, exactly one Transfer frame
goes out, the three counters move by one, the outcome is `Okay`; and on a
`Busy` or `Error` outcome `next_outgoing_id` is unchanged. -/
theorem outgoing_transfer_success_spec (s : Session) (d : Delivery) :
    (s.state = SessionState.MAPPED → 0 < s.remote_incoming_window →
      (outgoing_transfer s d).2.1.transfer_state = some SessionTransferState.Okay ∧
      (outgoing_transfer s d).2.1.frame.delivery_id = some s.next_outgoing_id ∧
      (outgoing_transfer s d).2.2 =
        [OutEvent.frame_sent s.channel
          (Frame.transferF { d.frame with delivery_id := some s.next_outgoing_id })] ∧
      (outgoing_transfer s d).1.next_outgoing_id = s.next_outgoing_id + 1 ∧
      (outgoing_transfer s d).1.remote_incoming_window = s.remote_incoming_window - 1 ∧
      (outgoing_transfer s d).1.outgoing_window = s.outgoing_window - 1) ∧
    (((outgoing_transfer s d).2.1.transfer_state = some SessionTransferState.Busy ∨
      (outgoing_transfer s d).2.1.transfer_state = some SessionTransferState.Error) →
      (outgoing_transfer s d).1.next_outgoing_id = s.next_outgoing_id) := by
  constructor
  · intro hs hw
    have hw' : ¬ s.remote_incoming_window ≤ 0 := not_le.mpr hw
    simp [outgoing_transfer, hs, hw']
  · intro hout
    by_cases hw : s.remote_incoming_window ≤ 0
    · simp [outgoing_transfer, if_pos hw]
    · exfalso
      rcases hout with hout | hout <;>
        simp [outgoing_transfer, if_neg hw] at hout

/-- A concrete MAPPED session with remote incoming window 2, for witnesses. -/
def mapped_session_win2 : Session :=
  { fresh_session 0 with
      state := SessionState.MAPPED
      remote_incoming_window := 2 }

/-- A concrete fresh Delivery, for witnesses. -/
def test_delivery : Delivery :=
  { frame := { delivery_id := none, rest := 7 }, transfer_state := none }

/-- Witness for C2 at a concrete MAPPED session with window 2. -/
theorem outgoing_transfer_success_spec_witness :
    mapped_session_win2.state = SessionState.MAPPED ∧
    (0 : Int) < mapped_session_win2.remote_incoming_window ∧
    (outgoing_transfer mapped_session_win2 test_delivery).1.next_outgoing_id = 1 :=
  ⟨by decide, by decide,
    ((outgoing_transfer_success_spec mapped_session_win2 test_delivery).1
      (by decide) (by decide)).2.2.2.1⟩

/-- C3 (code bug): the source marks the Delivery `Error` when the state is
not MAPPED but does not return, so with `remote_incoming_window = 1` an
UNMAPPED session still sends the Transfer frame, advances its counters and
ends with outcome `Okay` — the claimed refusal never happens (and the final
`transfer_state` is in fact never `Error`). -/
theorem outgoing_transfer_unmapped_bug :
    ({ fresh_session 0 with remote_incoming_window := 1 }).state ≠ SessionState.MAPPED ∧
    (outgoing_transfer { fresh_session 0 with remote_incoming_window := 1 }
        { frame := { delivery_id := none, rest := 7 }, transfer_state := none }).2.1.transfer_state
      = some SessionTransferState.Okay ∧
    (outgoing_transfer { fresh_session 0 with remote_incoming_window := 1 }
        { frame := { delivery_id := none, rest := 7 }, transfer_state := none }).2.2.length = 1 ∧
    (outgoing_transfer { fresh_session 0 with remote_incoming_window := 1 }
        { frame := { delivery_id := none, rest := 7 }, transfer_state := none }).1.next_outgoing_id
      = 1 := by
  decide

/-- `FlowFrame(**link_flow)` as built by `_outgoing_flow(self, frame=None)`
(lines 179-187): the session overlays its four flow-control fields. -/
def outgoing_flow_frame (s : Session) : FlowFrameOut :=
  { next_incoming_id := s.next_incoming_id
    incoming_window := s.incoming_window
    next_outgoing_id := s.next_outgoing_id
    outgoing_window := s.outgoing_window }

/-- `_incoming_transfer(self, frame)` (lines 215-225). `next_incoming_id`
is `None` until a Begin/Flow arrives; `None += 1` is a Python `TypeError`.
The `KeyError` on an unattached handle is swallowed. The window check runs
after the decrement; on refill, `_outgoing_flow()` reads the refilled
state. -/
def incoming_transfer (s : Session) (f : TransferFrameIn) :
    Except PyErr (Session × List OutEvent) :=
  match s.next_incoming_id with
  | none => Except.error PyErr.typeError
  | some nid =>
    let s1 := { s with
      next_incoming_id := some (nid + 1)
      remote_outgoing_window := s.remote_outgoing_window - 1
      incoming_window := s.incoming_window - 1 }
    let link_events :=
      match lookup_handle s1.input_handles f.handle with
      | some l => [OutEvent.link_transfer l.id]
      | none => []
    if s1.incoming_window = 0 then
      let s2 := { s1 with incoming_window := s1.target_incoming_window }
      Except.ok (s2,
        link_events ++ [OutEvent.frame_sent s2.channel (Frame.flowF (outgoing_flow_frame s2))])
    else
      Except.ok (s1, link_events)

/-- Counts the Flow frames among the Session's outgoing events. -/
def flow_frame_count (evs : List OutEvent) : Nat :=
  (evs.filter (fun e =>
    match e with
    | OutEvent.frame_sent _ (Frame.flowF _) => true
    | _ => false)).length

/-- C4: an incoming Transfer advances `next_incoming_id` by 1 and lowers
`remote_outgoing_window` and `incoming_window` by 1; when the decrement
lands `incoming_window` on exactly 0 it refills to
`target_incoming_window` and exactly one Flow frame is sent, otherwise no
Flow is sent. -/
theorem incoming_transfer_window_spec (s : Session) (f : TransferFrameIn)
    (n : Int) (hn : s.next_incoming_id = some n) :
    ∃ s' evs, incoming_transfer s f = Except.ok (s', evs) ∧
      s'.next_incoming_id = some (n + 1) ∧
      s'.remote_outgoing_window = s.remote_outgoing_window - 1 ∧
      (s.incoming_window - 1 = 0 →
        s'.incoming_window = s.target_incoming_window ∧ flow_frame_count evs = 1) ∧
      (s.incoming_window - 1 ≠ 0 →
        s'.incoming_window = s.incoming_window - 1 ∧ flow_frame_count evs = 0) := by
  unfold incoming_transfer
  rw [hn]
  dsimp only
  by_cases hz : s.incoming_window - 1 = 0
  · rw [if_pos hz]
    refine ⟨_, _, rfl, by simp, by simp, fun _ => ⟨by simp, ?_⟩, fun h => absurd hz h⟩
    cases hl : lookup_handle s.input_handles f.handle <;>
      simp [flow_frame_count, hl]
  · rw [if_neg hz]
    refine ⟨_, _, rfl, by simp, by simp, fun h => absurd h hz, fun _ => ⟨by simp, ?_⟩⟩
    cases hl : lookup_handle s.input_handles f.handle <;>
      simp [flow_frame_count, hl]

/-- A concrete session that has completed Begin with a one-slot incoming
window about to be exhausted, for witnesses. -/
def mapped_session_recv : Session :=
  { fresh_session 0 with
      state := SessionState.MAPPED
      next_incoming_id := some 4
      incoming_window := 1
      target_incoming_window := 1
      remote_outgoing_window := 10 }

/-- Witness for C4: one incoming Transfer at window 1 refills the window
and emits exactly one Flow. -/
theorem incoming_transfer_window_spec_witness :
    mapped_session_recv.next_incoming_id = some 4 ∧
    ∃ s' evs, incoming_transfer mapped_session_recv { handle := 2, rest := 0 }
        = Except.ok (s', evs) ∧
      s'.next_incoming_id = some (4 + 1) ∧
      s'.remote_outgoing_window = mapped_session_recv.remote_outgoing_window - 1 ∧
      (mapped_session_recv.incoming_window - 1 = 0 →
        s'.incoming_window = mapped_session_recv.target_incoming_window ∧
          flow_frame_count evs = 1) ∧
      (mapped_session_recv.incoming_window - 1 ≠ 0 →
        s'.incoming_window = mapped_session_recv.incoming_window - 1 ∧
          flow_frame_count evs = 0) :=
  ⟨by decide,
    incoming_transfer_window_spec mapped_session_recv { handle := 2, rest := 0 } 4 (by decide)⟩

/-- The unconditional field updates of `_incoming_flow(self, frame)`
(lines 190-193): they happen before any handle dispatch.
`remote_incoming_id` uses Python `or`, so a present-but-zero
`frame.next_incoming_id` also falls back to our `next_outgoing_id`. -/
def incoming_flow_update (s : Session) (f : FlowFrameIn) : Session :=
  let remote_incoming_id := py_or_int f.next_incoming_id s.next_outgoing_id
  { s with
      next_incoming_id := some f.next_outgoing_id
      remote_incoming_window := remote_incoming_id + f.incoming_window - s.next_outgoing_id
      remote_outgoing_window := f.outgoing_window }

/-- `_incoming_flow(self, frame)` (lines 189-199): after the field updates,
a truthy `frame.handle` forwards to the single link under that input handle
(`KeyError` if unattached, not caught); otherwise the Flow is broadcast to
every output-handle link that is not closed, while
`remote_incoming_window > 0`. -/
def incoming_flow (s : Session) (f : FlowFrameIn) :
    Except PyErr (Session × List OutEvent) :=
  let s1 := incoming_flow_update s f
  if py_truthy_opt f.handle then
    match lookup_handle s1.input_handles (f.handle.getD 0) with
    | some l => Except.ok (s1, [OutEvent.link_flow l.id])
    | none => Except.error PyErr.keyError
  else
    Except.ok (s1, s1.output_handles.filterMap (fun p =>
      if 0 < s1.remote_incoming_window ∧ p.2.is_closed = false then
        some (OutEvent.link_flow p.2.id)
      else none))

/-- A session-wide incoming Flow frame whose `next_incoming_id` is present
but zero, for the C5 counterexample. -/
def flow_frame_zero_nid : FlowFrameIn :=
  { next_outgoing_id := 7
    next_incoming_id := some 0
    incoming_window := 10
    outgoing_window := 3
    handle := none }

/-- A session five transfers into its outgoing sequence, for the C5
counterexample. -/
def session_outgoing5 : Session :=
  { fresh_session 0 with
      state := SessionState.MAPPED
      next_outgoing_id := 5 }

/-- C5 counterexample: the claim computes
`remote_incoming_window = frame.next_incoming_id + frame.incoming_window -
next_outgoing_id = 0 + 10 - 5 = 5` when `next_incoming_id` is present;
the code's Python `or` treats the present value `0` as absent and yields
`5 + 10 - 5 = 10`. -/
theorem incoming_flow_zero_nid_counterexample :
    flow_frame_zero_nid.next_incoming_id = some 0 ∧
    (incoming_flow_update session_outgoing5 flow_frame_zero_nid).remote_incoming_window ≠
      0 + flow_frame_zero_nid.incoming_window - session_outgoing5.next_outgoing_id ∧
    (incoming_flow_update session_outgoing5 flow_frame_zero_nid).remote_incoming_window = 10 := by
  decide

/-- C5 amended: `_incoming_flow` sets `next_incoming_id` to the frame's
`next_outgoing_id` and `remote_outgoing_window` to the frame's
`outgoing_window`; `remote_incoming_window` becomes
`base + frame.incoming_window - next_outgoing_id` where `base` is the
frame's `next_incoming_id` when present and nonzero (Python truthiness)
and our own `next_outgoing_id` otherwise; these updates are what any
non-raising run of `_incoming_flow` leaves in the session. -/
theorem incoming_flow_update_spec (s : Session) (f : FlowFrameIn) :
    (incoming_flow_update s f).next_incoming_id = some f.next_outgoing_id ∧
    (f.next_incoming_id = none ∨ f.next_incoming_id = some 0 →
      (incoming_flow_update s f).remote_incoming_window = f.incoming_window) ∧
    (∀ m : Int, f.next_incoming_id = some m → m ≠ 0 →
      (incoming_flow_update s f).remote_incoming_window
        = m + f.incoming_window - s.next_outgoing_id) ∧
    (incoming_flow_update s f).remote_outgoing_window = f.outgoing_window ∧
    (∀ s' evs, incoming_flow s f = Except.ok (s', evs) → s' = incoming_flow_update s f) := by
  refine ⟨rfl, ?_, ?_, rfl, ?_⟩
  · rintro (h | h) <;> simp [incoming_flow_update, py_or_int, h]
  · intro m hm hm0
    simp [incoming_flow_update, py_or_int, hm, hm0]
  · intro s' evs h
    by_cases ht : py_truthy_opt f.handle = true
    · rw [incoming_flow, if_pos ht] at h
      cases hl : lookup_handle (incoming_flow_update s f).input_handles (f.handle.getD 0) <;>
        rw [hl] at h
      · cases h
      · cases h; rfl
    · rw [incoming_flow, if_neg ht] at h
      cases h; rfl

/-- Witness for C5 (amended): a Flow with nonzero `next_incoming_id = 3`
arriving at `session_outgoing5` yields
`remote_incoming_window = 3 + 10 - 5 = 8`. -/
theorem incoming_flow_update_spec_witness :
    (({ flow_frame_zero_nid with next_incoming_id := some 3 } : FlowFrameIn).next_incoming_id
        = some 3) ∧
    (3 : Int) ≠ 0 ∧
    (incoming_flow_update session_outgoing5
        { flow_frame_zero_nid with next_incoming_id := some 3 }).remote_incoming_window
      = 3 + 10 - 5 :=
  ⟨by decide, by decide,
    (incoming_flow_update_spec session_outgoing5
        { flow_frame_zero_nid with next_incoming_id := some 3 }).2.2.1
      3 (by decide) (by decide)⟩

/-- C10: a Flow whose `handle` is absent or `0` is treated as session-wide
(Python truthiness of `if frame.handle:`): it is broadcast from the
output-handle table — every event targets a non-closed output link and is
emitted only while the updated `remote_incoming_window` is positive, and
every non-closed output link gets one when the window is positive — and it
is never forwarded through the input-handle table; only a nonzero handle
gives targeted forwarding to the link under that input handle. -/
theorem incoming_flow_dispatch_spec (s : Session) (f : FlowFrameIn) :
    ((f.handle = none ∨ f.handle = some 0) →
      ∃ evs, incoming_flow s f = Except.ok (incoming_flow_update s f, evs) ∧
        (∀ i, OutEvent.link_flow i ∈ evs →
          0 < (incoming_flow_update s f).remote_incoming_window ∧
          ∃ h l, (h, l) ∈ s.output_handles ∧ l.id = i ∧ l.is_closed = false) ∧
        (∀ h l, (h, l) ∈ s.output_handles → l.is_closed = false →
          0 < (incoming_flow_update s f).remote_incoming_window →
          OutEvent.link_flow l.id ∈ evs)) ∧
    (∀ h l, f.handle = some h → h ≠ 0 →
      lookup_handle s.input_handles h = some l →
      incoming_flow s f = Except.ok (incoming_flow_update s f, [OutEvent.link_flow l.id])) := by
  constructor
  · intro hh
    have ht : py_truthy_opt f.handle = false := by
      rcases hh with h | h <;> simp [py_truthy_opt, h]
    rw [incoming_flow, if_neg (by simp [ht])]
    refine ⟨_, rfl, ?_, ?_⟩
    · intro i hi
      rw [List.mem_filterMap] at hi
      obtain ⟨p, hp, hpe⟩ := hi
      split at hpe
      · rename_i hcond
        cases hpe
        exact ⟨hcond.1, p.1, p.2, hp, rfl, hcond.2⟩
      · cases hpe
    · intro h l hmem hcl hw
      rw [List.mem_filterMap]
      exact ⟨(h, l), hmem, by simp [hw, hcl]⟩
  · intro h l hh hh0 hl
    have ht : py_truthy_opt f.handle = true := by
      simp [py_truthy_opt, hh, hh0]
    rw [incoming_flow, if_pos ht]
    have : (incoming_flow_update s f).input_handles = s.input_handles := rfl
    rw [hh]
    simp only [Option.getD_some, this, hl]

/-- A MAPPED session holding one open and one closed output link, and an
input link registered under handle 0, for the C10 witness. -/
def bcast_session : Session :=
  { fresh_session 0 with
      state := SessionState.MAPPED
      output_handles := [(1, { id := 10, is_closed := false }), (2, { id := 11, is_closed := true })]
      input_handles := [(0, { id := 9, is_closed := false })] }

/-- A session-wide Flow (handle present but `0`), for the C10 witness. -/
def bcast_flow : FlowFrameIn :=
  { next_outgoing_id := 2
    next_incoming_id := some 1
    incoming_window := 4
    outgoing_window := 6
    handle := some 0 }

/-- Witness for C10: the handle-`0` Flow broadcasts (it is not forwarded to
the link registered under input handle 0). -/
theorem incoming_flow_dispatch_spec_witness :
    (bcast_flow.handle = none ∨ bcast_flow.handle = some 0) ∧
    ∃ evs, incoming_flow bcast_session bcast_flow
        = Except.ok (incoming_flow_update bcast_session bcast_flow, evs) ∧
      (∀ i, OutEvent.link_flow i ∈ evs →
        0 < (incoming_flow_update bcast_session bcast_flow).remote_incoming_window ∧
        ∃ h l, (h, l) ∈ bcast_session.output_handles ∧ l.id = i ∧ l.is_closed = false) ∧
      (∀ h l, (h, l) ∈ bcast_session.output_handles → l.is_closed = false →
        0 < (incoming_flow_update bcast_session bcast_flow).remote_incoming_window →
        OutEvent.link_flow l.id ∈ evs) :=
  ⟨Or.inr rfl, (incoming_flow_dispatch_spec bcast_session bcast_flow).1 (Or.inr rfl)⟩

/-- The `BeginFrame` built by `_outgoing_begin(self)` (lines 122-133):
`remote_channel` and `offered_capabilities` only when responding from
BEGIN_RCVD, `desired_capabilities` only on a first Begin from UNMAPPED. -/
def outgoing_begin_frame (s : Session) : BeginFrameOut :=
  { remote_channel :=
      if s.state = SessionState.BEGIN_RCVD then s.remote_channel else none
    next_outgoing_id := s.next_outgoing_id
    outgoing_window := s.outgoing_window
    incoming_window := s.incoming_window
    handle_max := s.handle_max
    offered_capabilities :=
      if s.state = SessionState.BEGIN_RCVD then s.offered_capabilities else none
    desired_capabilities :=
      if s.state = SessionState.UNMAPPED then s.desired_capabilities else none
    properties := s.properties }

/-- `_incoming_begin(self, frame)` (lines 135-146): capture the peer's
`handle_max`, sequence id and windows; from BEGIN_SENT adopt
`remote_channel` and map; from UNMAPPED pass through BEGIN_RCVD, reply
with our own Begin, and map. -/
def incoming_begin (s : Session) (f : BeginFrameIn) : Session × List OutEvent :=
  let s1 := { s with
      handle_max := f.handle_max
      next_incoming_id := some f.next_outgoing_id
      remote_incoming_window := f.incoming_window
      remote_outgoing_window := f.outgoing_window }
  if s1.state = SessionState.BEGIN_SENT then
    ({ s1 with remote_channel := f.remote_channel, state := SessionState.MAPPED }, [])
  else if s1.state = SessionState.UNMAPPED then
    let s2 := { s1 with state := SessionState.BEGIN_RCVD }
    ({ s2 with state := SessionState.MAPPED },
      [OutEvent.frame_sent s2.channel (Frame.beginF (outgoing_begin_frame s2))])
  else (s1, [])

/-- C7: an incoming Begin records the peer's `handle_max`, adopts its
`next_outgoing_id` as our `next_incoming_id`, and records both remote
windows; from BEGIN_SENT it also adopts `remote_channel` and maps without
replying; from UNMAPPED it maps and replies with exactly one Begin on the
session's channel. -/
theorem incoming_begin_spec (s : Session) (f : BeginFrameIn) :
    (incoming_begin s f).1.handle_max = f.handle_max ∧
    (incoming_begin s f).1.next_incoming_id = some f.next_outgoing_id ∧
    (incoming_begin s f).1.remote_incoming_window = f.incoming_window ∧
    (incoming_begin s f).1.remote_outgoing_window = f.outgoing_window ∧
    (s.state = SessionState.BEGIN_SENT →
      (incoming_begin s f).1.remote_channel = f.remote_channel ∧
      (incoming_begin s f).1.state = SessionState.MAPPED ∧
      (incoming_begin s f).2 = []) ∧
    (s.state = SessionState.UNMAPPED →
      (incoming_begin s f).1.state = SessionState.MAPPED ∧
      ∃ b, (incoming_begin s f).2 = [OutEvent.frame_sent s.channel (Frame.beginF b)]) := by
  by_cases h1 : s.state = SessionState.BEGIN_SENT
  · simp [incoming_begin, h1]
  · by_cases h2 : s.state = SessionState.UNMAPPED
    · have hev : (incoming_begin s f).2
          = [OutEvent.frame_sent s.channel (Frame.beginF (outgoing_begin_frame
              { s with
                  handle_max := f.handle_max
                  next_incoming_id := some f.next_outgoing_id
                  remote_incoming_window := f.incoming_window
                  remote_outgoing_window := f.outgoing_window
                  state := SessionState.BEGIN_RCVD }))] := by
        simp [incoming_begin, h1, h2]
      refine ⟨?_, ?_, ?_, ?_, fun h => absurd h h1, fun _ => ⟨?_, _, hev⟩⟩ <;>
        simp [incoming_begin, h1, h2]
    · refine ⟨?_, ?_, ?_, ?_, fun h => absurd h h1, fun h => absurd h h2⟩ <;>
        simp [incoming_begin, h1, h2]

/-- The spec's Begin scenario: `next_outgoing_id=5`, both windows 10,
`handle_max=10`, no `remote_channel`. -/
def scenario_begin_frame : BeginFrameIn :=
  { remote_channel := none
    next_outgoing_id := 5
    incoming_window := 10
    outgoing_window := 10
    handle_max := 10 }

/-- Witness for C7: the spec's scenario — that Begin arriving at an
UNMAPPED session on channel 3 leaves it MAPPED with
`next_incoming_id = 5` after replying with one Begin. -/
theorem incoming_begin_spec_witness :
    (fresh_session 3).state = SessionState.UNMAPPED ∧
    (incoming_begin (fresh_session 3) scenario_begin_frame).1.state = SessionState.MAPPED ∧
    (incoming_begin (fresh_session 3) scenario_begin_frame).1.next_incoming_id = some 5 ∧
    ∃ b, (incoming_begin (fresh_session 3) scenario_begin_frame).2
        = [OutEvent.frame_sent 3 (Frame.beginF b)] :=
  ⟨rfl,
    ((incoming_begin_spec (fresh_session 3) scenario_begin_frame).2.2.2.2.2 rfl).1,
    (incoming_begin_spec (fresh_session 3) scenario_begin_frame).2.1,
    ((incoming_begin_spec (fresh_session 3) scenario_begin_frame).2.2.2.2.2 rfl).2⟩

/-- `_get_next_output_handle(self)` (lines 109-120): a guard raising
`ValueError` when `len(output_handles) >= handle_max`, then
`next(i for i in range(1, handle_max) if i not in output_handles)` —
`next` on an exhausted generator raises `StopIteration`. -/
def get_next_output_handle (s : Session) : Except PyErr Nat :=
  if s.handle_max ≤ s.output_handles.length then Except.error PyErr.valueError
  else
    match (List.range' 1 (s.handle_max - 1)).find?
        (fun i => !((s.output_handles.map Prod.fst).contains i)) with
    | some h => Except.ok h
    | none => Except.error PyErr.stopIteration

/-- A session with `handle_max = 3` and a given output-handle table. -/
def hm3_session (hs : List (Nat × Link)) : Session :=
  { fresh_session 0 with handle_max := 3, output_handles := hs }

/-- An open link with the given id, for handle-allocation inputs. -/
def test_link (i : Nat) : Link := { id := i, is_closed := false }

/-- C6 (code bug): with `handle_max = 3` the pool `range(1, 3)` holds only
two handles, so after two first-fit allocations (1 then 2) a third call
finds `len(output_handles) = 2 < 3` — the documented `ValueError` guard
does not fire — and the generator is exhausted: the call raises
`StopIteration` instead of returning a handle or a capacity error. -/
theorem get_next_output_handle_off_by_one :
    get_next_output_handle (hm3_session []) = Except.ok 1 ∧
    get_next_output_handle (hm3_session [(1, test_link 1)]) = Except.ok 2 ∧
    get_next_output_handle (hm3_session [(1, test_link 1), (2, test_link 2)])
      = Except.error PyErr.stopIteration ∧
    (hm3_session [(1, test_link 1), (2, test_link 2)]).output_handles.length
      < (hm3_session [(1, test_link 1), (2, test_link 2)]).handle_max :=
  ⟨rfl, rfl, rfl, by decide⟩

/-- The `wait == True` branch of `_wait_for_response` (lines 251-255):
one `listen`, then `while self.state != end_state: sleep; listen`.
`listen` is the Connection's receive path (an external collaborator that
may change the session); the unbounded `while` gets explicit fuel, `none`
meaning the loop was still running when the fuel ran out. -/
def wait_loop (listen : Session → Session) (end_state : SessionState) :
    Nat → Session → Option Session
  | 0, s => if s.state = end_state then some s else none
  | Nat.succ fuel, s =>
      if s.state = end_state then some s
      else wait_loop listen end_state fuel (listen s)

/-- `_wait_for_response(self, wait=True, end_state)`. -/
def wait_for_response_true (listen : Session → Session) (end_state : SessionState)
    (fuel : Nat) (s : Session) : Option Session :=
  wait_loop listen end_state fuel (listen s)

/-- `begin(self, wait=True)` (lines 265-269): send Begin, enter BEGIN_SENT,
then `_wait_for_response(wait, SessionState.BEGIN_SENT)` — the source
passes BEGIN_SENT, not MAPPED, as the end state to wait for. -/
def begin_wait_true (listen : Session → Session) (fuel : Nat) (s : Session) :
    Option (Session × List OutEvent) :=
  let ev := OutEvent.frame_sent s.channel (Frame.beginF (outgoing_begin_frame s))
  let s1 := { s with state := SessionState.BEGIN_SENT }
  (wait_for_response_true listen SessionState.BEGIN_SENT fuel s1).map (fun s2 => (s2, [ev]))

/-- A Connection receive path for a peer that has not yet replied: no
state change. -/
def silent_listen : Session → Session := fun s => s

/-- A Connection receive path whose first poll processes the peer's Begin,
mapping the session. -/
def mapping_listen : Session → Session :=
  fun s => { s with state := SessionState.MAPPED }

/-- C8 (code bug): `begin(wait=True)` waits for end state BEGIN_SENT, so
with a silent peer it returns at once while the session is still merely
BEGIN_SENT; and if the first poll maps the session it can never observe
BEGIN_SENT again, so the wait loop never terminates (for any fuel). -/
theorem begin_wait_true_bug :
    ((begin_wait_true silent_listen 0 (fresh_session 0)).map (fun p => p.1.state)
      = some SessionState.BEGIN_SENT) ∧
    (∀ fuel, begin_wait_true mapping_listen fuel (fresh_session 0) = none) := by
  constructor
  · rfl
  · intro fuel
    have key : ∀ n (s : Session), s.state = SessionState.MAPPED →
        wait_loop mapping_listen SessionState.BEGIN_SENT n s = none := by
      intro n
      induction n with
      | zero => intro s hs; simp [wait_loop, hs]
      | succ k ih =>
        intro s hs
        rw [wait_loop, if_neg (by simp [hs])]
        exact ih _ rfl
    unfold begin_wait_true wait_for_response_true
    show Option.map _ (wait_loop mapping_listen SessionState.BEGIN_SENT fuel
        (mapping_listen { fresh_session 0 with state := SessionState.BEGIN_SENT })) = none
    rw [key fuel (mapping_listen { fresh_session 0 with state := SessionState.BEGIN_SENT }) rfl]
    rfl

/-- Modelled from the spec: `TLS_HEADER_FRAME` lives in `..constants`,
which is not among the source files; the spec fixes only that it is a
fixed constant byte sequence (the AMQP TLS protocol header) exchanged
before any frame. Its exact bytes are irrelevant to the claims. -/
def TLS_HEADER_FRAME : List Nat := [65, 77, 81, 80, 2, 1, 0, 0]

/-- `AsyncTransport.negotiate(self)` (transport lines 350-357). After the
`sslopts` guard, the body executes `await self.wriate(TLS_HEADER_FRAME)`;
`AsyncTransport` defines `write`, not `wriate`, so attribute lookup raises
`AttributeError` before any byte is sent or compared, whatever the peer
would echo (the next line would also assign into the undefined name
`returned_header`). -/
def negotiate (ssl_active : Bool) (echoed : List Nat) : Except PyErr Unit :=
  if !ssl_active then Except.ok ()
  else
    match echoed with
    | _ => Except.error PyErr.attributeError

/-- The final guard of `negotiate` (lines 355-357) taken in isolation, as
written: it raises the protocol-mismatch `ValueError` exactly when the
returned header EQUALS `TLS_HEADER_FRAME`, and returns silently when the
header differs — the opposite of its own error message. -/
def negotiate_header_check (returned_header : List Nat) : Except PyErr Unit :=
  if returned_header = TLS_HEADER_FRAME then Except.error PyErr.valueError
  else Except.ok ()

/-- C9 (code bug): on a TLS transport whose peer echoes exactly the
expected header, `negotiate` does not complete without error (it raises
`AttributeError` on `self.wriate`); and its own final comparison raises
the mismatch `ValueError` precisely on a matching header while accepting a
differing one. -/
theorem negotiate_bug :
    negotiate true TLS_HEADER_FRAME = Except.error PyErr.attributeError ∧
    negotiate_header_check TLS_HEADER_FRAME = Except.error PyErr.valueError ∧
    negotiate_header_check [0] = Except.ok () :=
  ⟨rfl, rfl, rfl⟩
